import Mathlib

/-!
Shallow embedding of `multipy/augment.py` (the whole repository's code) and
proofs about it.

Conventions of the embedding:
* A Python column `(column_header, column_values)` tuple is a
  `String × List String` (row values modelled as strings; every claim's data
  is string-valued or string-rendered).
* The column type dict `column_types` is an association list
  `List (String × List String)` (header ↦ list of semantic type tags); dict
  subscripting `column_types[h]` raises `KeyError` when `h` is absent, which
  the embedding models in the `Except PyErr` monad.
* Fallible Python code is embedded in `Except PyErr`: a bare
  `raise('msg')` is `PyErr.raised "msg"`, a dict miss is `PyErr.keyError k`,
  a list subscript out of range is `PyErr.indexError`, `str.join` over
  non-string elements is `PyErr.typeError`, and truth-testing a pandas
  DataFrame is `PyErr.valueError` (pandas refuses `bool(df)`).
-/

namespace Multipy

/-- A `(column_header, column_values)` pair, values modelled as strings. -/
abbrev Col := String × List String

/-- The `column_types` dict: header ↦ list of semantic type tags. -/
abbrev TypeMap := List (String × List String)

/-- Python runtime errors that the embedded code can raise. -/
inductive PyErr where
  /-- A bare `raise('msg')` of a message string. -/
  | raised (msg : String)
  /-- Dict subscript with a missing key. -/
  | keyError (key : String)
  /-- List subscript out of range. -/
  | indexError
  /-- Operation applied to a value of the wrong type
  (e.g. `str.join` over tuples). -/
  | typeError (msg : String)
  /-- `ValueError`, e.g. truth-testing a pandas DataFrame. -/
  | valueError (msg : String)
  deriving DecidableEq, Repr

/-- Python dict subscript `d[k]` over an association list:
the value at the first matching key, `KeyError` otherwise. -/
def pyDictGet (d : TypeMap) (k : String) : Except PyErr (List String) :=
  match d.lookup k with
  | some v => .ok v
  | none => .error (.keyError k)

/-- Total variant of dict lookup used only to STATE theorems
(`[]` when the key is absent); the embedded code itself uses `pyDictGet`. -/
def lookupD (d : TypeMap) (k : String) : List String :=
  (d.lookup k).getD []

/-- Python list subscript `l[i]`, `IndexError` when out of range. -/
def listGet (l : List α) (i : Nat) : Except PyErr α :=
  match l.get? i with
  | some v => .ok v
  | none => .error .indexError

/-- A Python list comprehension
`[f(c) for c in column_values if tag in column_types[c[0]]]`:
the dict subscript is evaluated for every element, so a header missing from
`column_types` raises `KeyError` even for elements that would be filtered out. -/
def tagComprehension (f : Col → α) (column_values : List Col)
    (column_types : TypeMap) (tag : String) : Except PyErr (List α) :=
  match column_values with
  | [] => .ok []
  | c :: rest =>
    match column_types.lookup c.1 with
    | none => .error (.keyError c.1)
    | some tags =>
      match tagComprehension f rest column_types tag with
      | .error e => .error e
      | .ok tail => if tag ∈ tags then .ok (f c :: tail) else .ok tail

/-- Pure counterpart of `tagComprehension` used to STATE theorems: the
elements of `column_values` whose tag set (empty when the header is
missing) contains `tag`. -/
def taggedCols (column_values : List Col) (column_types : TypeMap)
    (tag : String) : List Col :=
  column_values.filter (fun c => decide (tag ∈ lookupD column_types c.1))

/-- A Python value as seen by `str.join`: either a string or a
`(header, values)` column tuple. -/
inductive PyVal where
  | str (s : String)
  | tuple (fst : String) (snd : List String)
  deriving DecidableEq, Repr

/-- Python `sep.join(xs)`: `TypeError` unless every element is a `str`. -/
def pyJoin (sep : String) (xs : List PyVal) : Except PyErr String :=
  match xs with
  | [] => .ok ""
  | [PyVal.str s] => .ok s
  | PyVal.str s :: rest => do
      let tail ← pyJoin sep rest
      pure (s ++ sep ++ tail)
  | PyVal.tuple _ _ :: _ => .error (.typeError "sequence item: expected str instance, tuple found")

/-- `np.array(t).astype(str)` applied to a whole `(header, values)` column
tuple (as the source's `lat_column[1]` subscript yields): a length-2 string
array of the header and the rendered value list.  Unreachable in every run:
the guard in `process_coords` forces `len(lat_column) == 1` before the
`lat_column[1]` subscript, and the name join raises first anyway. -/
def npTupleAstypeStr (c : Col) : List String :=
  [c.1, toString c.2]

/-- Embedding of `process_coords` (augment.py lines 29-56).  Note the source
computes `new_column_name = '_'.join([lat_column[0], lng_column[0]])` BEFORE
the length guard, joining the column tuples themselves (not their headers):
with an empty role this subscript raises `IndexError`, and otherwise the
join raises `TypeError`. -/
def process_coords (column_values : List Col) (column_types : TypeMap) :
    Except PyErr (List Col) := do
  let lat_column ← tagComprehension id column_values column_types "latitude"
  let lng_column ← tagComprehension id column_values column_types "longitude"
  let lat0 ← listGet lat_column 0
  let lng0 ← listGet lng_column 0
  let new_column_name ← pyJoin "_" [PyVal.tuple lat0.1 lat0.2, PyVal.tuple lng0.1 lng0.2]
  if lat_column.length ≠ 1 ∨ lng_column.length ≠ 1 then
    return []
  else do
    let lat_values_src ← listGet lat_column 1
    let lng_values_src ← listGet lng_column 1
    let lat_values := npTupleAstypeStr lat_values_src
    let lng_values := npTupleAstypeStr lng_values_src
    return [(new_column_name, List.zipWith (fun a b => a ++ "," ++ b) lat_values lng_values)]

/-- pandas `df[role]` over the modelled frame (an association list of
role ↦ values, rectangular by the claims' equal-length hypotheses):
`KeyError` when the role column is absent. -/
def dfGet (df : List (String × List String)) (role : String) :
    Except PyErr (List String) :=
  match df.lookup role with
  | some v => .ok v
  | none => .error (.keyError role)

/-- The pure tail of `process_address_components` (augment.py lines 78-93),
taking the three role-column comprehension results.
`np.array([c[1] for c in columns]).T` wrapped in a DataFrame is modelled as
the association list `columns` itself (role name ↦ values, rectangular by
the claims' equal-length hypotheses); `astype(str)` on string values is the
identity; `Series.str.cat(other, sep)` is an element-wise `a ++ sep ++ b`. -/
def addressBody (street_column city_column region_column :
    List (String × List String)) : Except PyErr (List Col) := do
  let columns := [street_column, city_column, region_column].filterMap List.head?
  let df := columns
  let address ←
    if street_column.length > 0 then do
      let s ← dfGet df "street"
      let c ← dfGet df "city"
      pure (List.zipWith (fun a b => a ++ " " ++ b) s c)
    else
      dfGet df "city"
  let address ←
    if region_column.length > 0 then do
      let t ← dfGet df "state"
      pure (List.zipWith (fun a b => a ++ ", " ++ b) address t)
    else
      pure address
  return [(("full_address" : String), address)]

/-- Embedding of `process_address_components` (augment.py lines 59-93):
the three role comprehensions of lines 74-76, then the pure body. -/
def process_address_components (column_values : List Col)
    (column_types : TypeMap) : Except PyErr (List Col) := do
  let street_column ← tagComprehension (fun c => (("street" : String), c.2))
      column_values column_types "street"
  let city_column ← tagComprehension (fun c => (("city" : String), c.2))
      column_values column_types "city"
  let region_column ← tagComprehension (fun c => (("state" : String), c.2))
      column_values column_types "state"
  addressBody street_column city_column region_column

/-- Formalisation of the SPEC's address sentence, for comparison with the
source-derived `process_address_components`: one value per row of the
(unique) city column; "if a street value is present, result is
`"<street> <city>"`, else just `"<city>"`; if a state value is present,
appends `", <state>"`". -/
def spec_full_address (column_values : List Col) (column_types : TypeMap) :
    List String :=
  let street? := (taggedCols column_values column_types "street").head?
  let city := (((taggedCols column_values column_types "city").head?).map Prod.snd).getD []
  let state? := (taggedCols column_values column_types "state").head?
  (List.range city.length).map (fun i =>
    let base :=
      match street? with
      | some s => s.2.getD i "" ++ " " ++ city.getD i ""
      | none => city.getD i ""
    match state? with
    | some t => base ++ ", " ++ t.2.getD i ""
    | none => base)

/-- A parsed calendar date-time as `process_datetime` consumes it.  The
external date-cleaning collaborator (`preppy.clean_dates`) and the pandas
datetime accessors are out of this repository's scope, so the column's
values are taken as already-parsed date-times: `day` is `dt.day` (day of
month), `dayofweek` is `dt.dayofweek` (0 = Monday … 6 = Sunday), and
`hour`/`minute`/`second` are the time parts (second resolution, as the
claims only compare against `00:00:00`). -/
structure PyDateTime where
  day : Nat
  dayofweek : Fin 7
  hour : Nat
  minute : Nat
  second : Nat
  deriving DecidableEq, Repr

/-- The `day_of_week` dict of `process_datetime` (augment.py lines 123-131). -/
def day_of_week : Fin 7 → String
  | 0 => "Monday"
  | 1 => "Tuesday"
  | 2 => "Wednesday"
  | 3 => "Thursday"
  | 4 => "Friday"
  | 5 => "Saturday"
  | 6 => "Sunday"

/-- Zero-pad a numeral to two digits, as Python time formatting does. -/
def pad2 (n : Nat) : String :=
  if n < 10 then "0" ++ toString n else toString n

/-- `str(dt.time)` for a parsed date-time: `HH:MM:SS`. -/
def timeStr (v : PyDateTime) : String :=
  pad2 v.hour ++ ":" ++ pad2 v.minute ++ ":" ++ pad2 v.second

/-- A value in a column derived by `process_datetime`: weekday names are
strings, day-of-month and hour-of-day are integers. -/
inductive DTVal where
  | s (x : String)
  | n (x : Nat)
  deriving DecidableEq, Repr

/-- Embedding of `process_datetime` (augment.py lines 96-151) over
already-parsed date-time values.  `column_values[0]` raises `IndexError` on
an empty list; `len(list(set(xs))) == 1` is `xs.dedup.length == 1`; the
hour-of-day column is appended iff some row's `str(dt.time)` differs from
`'00:00:00'`. -/
def process_datetime (column_values : List (String × List PyDateTime))
    (_column_types : TypeMap) : Except PyErr (List (String × List DTVal)) := do
  let c ← listGet column_values 0
  let header := c.1
  let values := c.2
  let week_header := header ++ "_day_of_week"
  let month_header := header ++ "_day_of_month"
  let hour_header := header ++ "_hour_of_day"
  let week_vals := values.map (fun v => DTVal.s (day_of_week v.dayofweek))
  let month_vals := values.map (fun v => DTVal.n v.day)
  let new_columns :=
    (if week_vals.dedup.length = 1 then [] else [(week_header, week_vals)])
    ++ (if month_vals.dedup.length = 1 then [] else [(month_header, month_vals)])
  let times := values.map timeStr
  let new_columns :=
    if times.any (fun t => t ≠ "00:00:00") then
      new_columns ++ [(hour_header, values.map (fun v => DTVal.n v.hour))]
    else new_columns
  return new_columns

/-- The processor identities the driver's `performed` list compares by
object identity: both address patterns map to the same function object. -/
inductive ProcId where
  | coords
  | datetime
  | address
  deriving DecidableEq, Repr

/-- The `processors` registry of `augment_columns` (augment.py lines
194-207), keyed by pattern string. -/
def processors (pattern_str : String) : Option ProcId :=
  if pattern_str = "latitude,longitude" then some .coords
  else if pattern_str = "datetime" then some .datetime
  else if pattern_str = "city,state,street" then some .address
  else if pattern_str = "city,street" then some .address
  else none

/-- `itertools.product` over a list of lists, in itertools order (first
factor varies slowest). -/
def pyProduct : List (List α) → List (List α)
  | [] => [[]]
  | xs :: rest => xs.flatMap (fun x => (pyProduct rest).map (x :: ·))

/-- The `for header in column_combo` accumulation loop of
`get_column_type_combos` (augment.py lines 20-23): for each header the list
of `(header, tag)` pairs from the type dict (`KeyError` when absent). -/
def comboTypesList (column_types : TypeMap) :
    List String → Except PyErr (List (List (String × String)))
  | [] => .ok []
  | header :: rest => do
    let tags ← pyDictGet column_types header
    let tail ← comboTypesList column_types rest
    pure (tags.map (fun t => (header, t)) :: tail)

/-- Embedding of `get_column_type_combos` (augment.py lines 8-26): the
per-header `(header, tag)` lists, then their cartesian product. -/
def get_column_type_combos (column_combo : List String)
    (column_types : TypeMap) : Except PyErr (List (List (String × String))) := do
  let combo_types ← comboTypesList column_types column_combo
  return pyProduct combo_types

/-- `itertools.combinations(l, n)` in itertools order. -/
def combinations (l : List α) : Nat → List (List α)
  | 0 => [[]]
  | n + 1 =>
    match l with
    | [] => []
    | x :: xs => (combinations xs n).map (x :: ·) ++ combinations xs (n + 1)

/-- Insert into an ascending list, keeping it ascending. -/
def insertAsc (a : String) : List String → List String
  | [] => [a]
  | b :: t => if a ≤ b then a :: b :: t else b :: insertAsc a t

/-- Python `sorted` on strings: ascending lexicographic order (insertion
sort, which agrees with Python's stable sort on string values). -/
def pySorted : List String → List String
  | [] => []
  | a :: t => insertAsc a (pySorted t)

/-- An element of the driver's `new_columns` accumulator.  Because the
source appends `(combo_values, column_types)` itself — `new_columns +=
(combo_values, column_types)` extends the list with the tuple's two
elements — the accumulator holds a mix of column lists and the type dict,
not `(name, values)` pairs. -/
inductive AugEntry where
  | cols (cv : List Col)
  | types (ct : TypeMap)
  deriving DecidableEq, Repr

/-- The inner `for combo in type_combos` loop of `augment_columns`
(augment.py lines 218-227), threading `performed` and `new_columns`:
pattern lookup, `performed` gating, and the `new_columns +=
(combo_values, column_types)` append. -/
def augmentInner (combo_values : List Col) (column_types : TypeMap) :
    List (List (String × String)) → List ProcId → List AugEntry →
    List ProcId × List AugEntry
  | [], performed, new_columns => (performed, new_columns)
  | combo :: rest, performed, new_columns =>
    let pattern_str := String.intercalate "," (pySorted (combo.map Prod.snd))
    match processors pattern_str with
    | none => augmentInner combo_values column_types rest performed new_columns
    | some f =>
      if f ∈ performed then
        augmentInner combo_values column_types rest performed new_columns
      else
        augmentInner combo_values column_types rest (performed ++ [f])
          (new_columns ++ [.cols combo_values, .types column_types])

/-- The outer `for column_combo in itertools.combinations(headers, L)` loop
of `augment_columns` (augment.py lines 213-227).  Line 217 of the source
re-initialises `new_columns = []` inside this loop, so each combination's
inner loop starts from an empty accumulator and the previous combination's
entries are discarded. -/
def augmentLoop (column_values : List Col) (column_types : TypeMap) :
    List (List String) → List ProcId → List AugEntry →
    Except PyErr (List ProcId × List AugEntry)
  | [], performed, new_columns => .ok (performed, new_columns)
  | column_combo :: rest, performed, _new_columns => do
    let type_combos ← get_column_type_combos column_combo column_types
    let combo_values := column_values.filter (fun cv => decide (cv.1 ∈ column_combo))
    let (performed2, nc2) := augmentInner combo_values column_types type_combos performed []
    augmentLoop column_values column_types rest performed2 nc2

/-- Embedding of `augment_columns` (augment.py lines 154-229).  The guard
`if not columns and not df` short-circuits: an absent-or-empty column list
with no dataframe reaches `raise('columns or df is required')`; with a
dataframe supplied the `not df` truth test itself raises `ValueError`
(pandas refuses `bool(DataFrame)`), so the dataframe branch of the body is
unreachable and the dataframe is modelled as an opaque `Unit`. -/
def augment_columns (columns : Option (List Col)) (df : Option Unit)
    (column_types : TypeMap) : Except PyErr (List AugEntry) := do
  let cols ←
    match columns, df with
    | none, none => .error (.raised "columns or df is required")
    | some [], none => .error (.raised "columns or df is required")
    | none, some _ =>
        .error (.valueError "The truth value of a DataFrame is ambiguous.")
    | some [], some _ =>
        .error (.valueError "The truth value of a DataFrame is ambiguous.")
    | some (c :: cs), _ => .ok (c :: cs)
  let headers := cols.map Prod.fst
  let column_values := cols
  let all_combos :=
    combinations headers 3 ++ combinations headers 2 ++ combinations headers 1
  let (_, new_columns) ←
    augmentLoop column_values column_types all_combos [] []
  return new_columns

/-! ## Theorems about the claims -/

/-- C1: the claim says `augment_columns` invokes each matched processor and
returns the processor outputs accumulated over the whole run.  The code does
neither: `new_columns` is re-initialised inside the combination loop
(line 217), so a run whose last combinations match nothing returns `[]`
even though a datetime column was matched earlier, and when a match does
survive, the appended entries are the raw `(combo_values, column_types)`
arguments (line 226), not the processor's returned columns. -/
theorem c1_augment_columns_drops_processor_output :
    augment_columns (some [("a", ["x", "y"]), ("b", ["u", "v"])]) none
      [("a", ["datetime"]), ("b", [])] = .ok [] ∧
    augment_columns (some [("a", ["x"])]) none [("a", ["datetime"])] =
      .ok [.cols [("a", ["x"])], .types [("a", ["datetime"])]] :=
  ⟨rfl, rfl⟩

/-- C2: on street/city/state data the 3-column subset does match the address
pattern first and the `performed` gate suppresses the 2-column match, but no
derivation from either subset appears in the output: the run returns `[]`,
while `process_address_components` on the same data would produce a
`full_address` column. -/
theorem c2_no_derivation_in_output :
    augment_columns
      (some [("street", ["123 Main St"]), ("city", ["Austin"]), ("state", ["TX"])])
      none [("street", ["street"]), ("city", ["city"]), ("state", ["state"])] = .ok [] ∧
    process_address_components
      [("street", ["123 Main St"]), ("city", ["Austin"]), ("state", ["TX"])]
      [("street", ["street"]), ("city", ["city"]), ("state", ["state"])] =
      .ok [("full_address", ["123 Main St Austin, TX"])] :=
  ⟨rfl, rfl⟩

/-- C3: on the spec's own coordinate example (one latitude and one longitude
column), `process_coords` raises `TypeError` instead of returning the
combined coordinate column: line 43 joins the two column tuples themselves
(`'_'.join([lat_column[0], lng_column[0]])`), not their header strings. -/
theorem c3_process_coords_raises_type_error :
    process_coords [("lat", ["1.5", "-2.25"]), ("lng", ["3.0", "4.0"])]
      [("lat", ["latitude"]), ("lng", ["longitude"])] =
      .error (.typeError "sequence item: expected str instance, tuple found") :=
  rfl

/-- C4: with a latitude column and no longitude column, `process_coords`
raises `IndexError` instead of returning an empty result: the subscript
`lng_column[0]` on line 43 runs before the length guard on line 45; and in
the ambiguous two-latitude case the tuple join raises `TypeError`, again
before the guard can return `[]`. -/
theorem c4_process_coords_degenerate_raises :
    process_coords [("lat", ["1.5"])] [("lat", ["latitude"])] =
      .error .indexError ∧
    process_coords [("lat1", ["1.5"]), ("lat2", ["2.5"]), ("lng", ["3.0"])]
      [("lat1", ["latitude"]), ("lat2", ["latitude"]), ("lng", ["longitude"])] =
      .error (.typeError "sequence item: expected str instance, tuple found") :=
  ⟨rfl, rfl⟩

/-- C5: `process_address_components` applied to an input with no column
tagged `city` raises `KeyError('city')` — the DataFrame has no `city`
column and line 86/88 subscripts it unconditionally — rather than returning
an empty result as the claim states. -/
theorem c5_process_address_missing_city_raises :
    process_address_components [("s", ["123 Main St"])] [("s", ["street"])] =
      .error (.keyError "city") :=
  rfl

/-- When every header of the input is a key of the type dict, the
comprehension of lines 74-76 succeeds and returns `f` mapped over the
tag-filtered columns. -/
lemma tagComprehension_ok {α : Type} (f : Col → α) {column_values : List Col}
    {column_types : TypeMap} (tag : String)
    (h : ∀ c ∈ column_values, (column_types.lookup c.1).isSome) :
    tagComprehension f column_values column_types tag =
      .ok ((taggedCols column_values column_types tag).map f) := by
  induction column_values with
  | nil => rfl
  | cons c rest ih =>
    obtain ⟨v, hv⟩ := Option.isSome_iff_exists.mp (h c (List.mem_cons_self c rest))
    have htl := ih (fun d hd => h d (List.mem_cons_of_mem _ hd))
    have hfc : taggedCols (c :: rest) column_types tag =
        if tag ∈ v then c :: taggedCols rest column_types tag
        else taggedCols rest column_types tag := by
      simp [taggedCols, List.filter_cons, lookupD, hv]
    rw [hfc]
    show (match column_types.lookup c.1 with
      | none => (Except.error (.keyError c.1) : Except PyErr (List α))
      | some tags =>
        match tagComprehension f rest column_types tag with
        | .error e => .error e
        | .ok tail => if tag ∈ tags then .ok (f c :: tail) else .ok tail) = _
    rw [hv, htl]
    show (if tag ∈ v
        then (Except.ok (f c :: (taggedCols rest column_types tag).map f) : Except PyErr (List α))
        else .ok ((taggedCols rest column_types tag).map f)) = _
    by_cases hm : tag ∈ v
    · rw [if_pos hm, if_pos hm, List.map_cons]
    · rw [if_neg hm, if_neg hm]

/-- `addressBody` on street, city and state columns. -/
lemma addressBody_all (sv cv tv : List String) :
    addressBody [("street", sv)] [("city", cv)] [("state", tv)] =
      .ok [("full_address",
        List.zipWith (fun a b => a ++ ", " ++ b)
          (List.zipWith (fun a b => a ++ " " ++ b) sv cv) tv)] := rfl

/-- `addressBody` on street and city columns only. -/
lemma addressBody_street (sv cv : List String) :
    addressBody [("street", sv)] [("city", cv)] [] =
      .ok [("full_address", List.zipWith (fun a b => a ++ " " ++ b) sv cv)] := rfl

/-- `addressBody` on city and state columns only. -/
lemma addressBody_state (cv tv : List String) :
    addressBody [] [("city", cv)] [("state", tv)] =
      .ok [("full_address", List.zipWith (fun a b => a ++ ", " ++ b) cv tv)] := rfl

/-- `addressBody` on a city column alone. -/
lemma addressBody_city (cv : List String) :
    addressBody [] [("city", cv)] [] = .ok [("full_address", cv)] := rfl

/-- C6: with exactly one city-tagged column, at most one street-tagged and
at most one state-tagged column, all rows of equal length `n` and every
header in the type map, `process_address_components` returns exactly one
column named `full_address` whose rows are, row-for-row, the spec's
`"<street> <city>"`/`"<city>"` strings with `", <state>"` appended when a
state column is present (`spec_full_address`), and that column has `n`
rows. -/
theorem c6_process_address_components_spec (cols : List Col) (ct : TypeMap)
    (n : Nat)
    (hcov : ∀ c ∈ cols, (ct.lookup c.1).isSome)
    (hlen : ∀ c ∈ cols, c.2.length = n)
    (hcity : (taggedCols cols ct "city").length = 1)
    (hstreet : (taggedCols cols ct "street").length ≤ 1)
    (hstate : (taggedCols cols ct "state").length ≤ 1) :
    process_address_components cols ct =
      .ok [("full_address", spec_full_address cols ct)] ∧
    (spec_full_address cols ct).length = n := by
  obtain ⟨c, hC⟩ := List.length_eq_one.mp hcity
  have hcmem : c ∈ cols := by
    have hx : c ∈ taggedCols cols ct "city" := by
      rw [hC]; exact List.mem_singleton_self c
    exact List.mem_of_mem_filter hx
  have hcn : c.2.length = n := hlen c hcmem
  have hproc : process_address_components cols ct =
      addressBody ((taggedCols cols ct "street").map (fun c => (("street" : String), c.2)))
        ((taggedCols cols ct "city").map (fun c => (("city" : String), c.2)))
        ((taggedCols cols ct "state").map (fun c => (("state" : String), c.2))) := by
    show (do
        let street_column ← tagComprehension (fun c => (("street" : String), c.2)) cols ct "street"
        let city_column ← tagComprehension (fun c => (("city" : String), c.2)) cols ct "city"
        let region_column ← tagComprehension (fun c => (("state" : String), c.2)) cols ct "state"
        addressBody street_column city_column region_column) = _
    rw [tagComprehension_ok _ _ hcov, tagComprehension_ok _ _ hcov,
      tagComprehension_ok _ _ hcov]
    rfl
  have hS : taggedCols cols ct "street" = [] ∨
      ∃ s, taggedCols cols ct "street" = [s] ∧ s.2.length = n := by
    cases hSeq : taggedCols cols ct "street" with
    | nil => exact Or.inl rfl
    | cons s tl =>
      cases tl with
      | nil =>
        have hsmem : s ∈ cols := by
          have hx : s ∈ taggedCols cols ct "street" := by
            rw [hSeq]; exact List.mem_singleton_self s
          exact List.mem_of_mem_filter hx
        exact Or.inr ⟨s, rfl, hlen s hsmem⟩
      | cons s2 tl2 => rw [hSeq] at hstreet; simp at hstreet
  have hT : taggedCols cols ct "state" = [] ∨
      ∃ t, taggedCols cols ct "state" = [t] ∧ t.2.length = n := by
    cases hTeq : taggedCols cols ct "state" with
    | nil => exact Or.inl rfl
    | cons t tl =>
      cases tl with
      | nil =>
        have htmem : t ∈ cols := by
          have hx : t ∈ taggedCols cols ct "state" := by
            rw [hTeq]; exact List.mem_singleton_self t
          exact List.mem_of_mem_filter hx
        exact Or.inr ⟨t, rfl, hlen t htmem⟩
      | cons t2 tl2 => rw [hTeq] at hstate; simp at hstate
  rcases hS with hSeq | ⟨s, hSeq, hsn⟩ <;> rcases hT with hTeq | ⟨t, hTeq, htn⟩
  · rw [hproc, hSeq, hC, hTeq]
    simp only [List.map_nil, List.map_cons, addressBody_city,
      spec_full_address, hSeq, hC, hTeq, List.head?_nil, List.head?_cons,
      Option.map_some', Option.getD_some]
    refine ⟨congrArg (fun l => (Except.ok [(("full_address" : String), l)] :
      Except PyErr (List Col))) ?_, by simp [hcn]⟩
    apply List.ext_getElem
    · simp
    · intro i h1 h2
      simp only [List.getElem_map, List.getElem_range]
      rw [List.getD_eq_getElem]
  · rw [hproc, hSeq, hC, hTeq]
    simp only [List.map_nil, List.map_cons, addressBody_state,
      spec_full_address, hSeq, hC, hTeq, List.head?_nil, List.head?_cons,
      Option.map_some', Option.getD_some]
    refine ⟨congrArg (fun l => (Except.ok [(("full_address" : String), l)] :
      Except PyErr (List Col))) ?_, by simp [hcn]⟩
    apply List.ext_getElem
    · simp [hcn, htn]
    · intro i h1 h2
      simp only [List.getElem_zipWith, List.getElem_map, List.getElem_range]
      rw [List.getD_eq_getElem, List.getD_eq_getElem]
  · rw [hproc, hSeq, hC, hTeq]
    simp only [List.map_nil, List.map_cons, addressBody_street,
      spec_full_address, hSeq, hC, hTeq, List.head?_nil, List.head?_cons,
      Option.map_some', Option.getD_some]
    refine ⟨congrArg (fun l => (Except.ok [(("full_address" : String), l)] :
      Except PyErr (List Col))) ?_, by simp [hcn]⟩
    apply List.ext_getElem
    · simp [hcn, hsn]
    · intro i h1 h2
      simp only [List.getElem_zipWith, List.getElem_map, List.getElem_range]
      rw [List.getD_eq_getElem, List.getD_eq_getElem]
  · rw [hproc, hSeq, hC, hTeq]
    simp only [List.map_nil, List.map_cons, addressBody_all,
      spec_full_address, hSeq, hC, hTeq, List.head?_nil, List.head?_cons,
      Option.map_some', Option.getD_some]
    refine ⟨congrArg (fun l => (Except.ok [(("full_address" : String), l)] :
      Except PyErr (List Col))) ?_, by simp [hcn]⟩
    apply List.ext_getElem
    · simp [hcn, hsn, htn]
    · intro i h1 h2
      simp only [List.getElem_zipWith, List.getElem_map, List.getElem_range]
      rw [List.getD_eq_getElem, List.getD_eq_getElem, List.getD_eq_getElem]

/-- Witness for C6 at the spec's own example, whose expected output is
`["123 Main St Austin, TX"]`. -/
theorem c6_process_address_components_spec_witness :
    (process_address_components
        [("street", ["123 Main St"]), ("city", ["Austin"]), ("state", ["TX"])]
        [("street", ["street"]), ("city", ["city"]), ("state", ["state"])] =
      .ok [("full_address", spec_full_address
        [("street", ["123 Main St"]), ("city", ["Austin"]), ("state", ["TX"])]
        [("street", ["street"]), ("city", ["city"]), ("state", ["state"])])] ∧
      (spec_full_address
        [("street", ["123 Main St"]), ("city", ["Austin"]), ("state", ["TX"])]
        [("street", ["street"]), ("city", ["city"]), ("state", ["state"])]).length = 1) ∧
    spec_full_address
        [("street", ["123 Main St"]), ("city", ["Austin"]), ("state", ["TX"])]
        [("street", ["street"]), ("city", ["city"]), ("state", ["state"])] =
      ["123 Main St Austin, TX"] :=
  ⟨c6_process_address_components_spec
      [("street", ["123 Main St"]), ("city", ["Austin"]), ("state", ["TX"])]
      [("street", ["street"]), ("city", ["city"]), ("state", ["state"])] 1
      (by decide) (by decide) (by decide) (by decide) (by decide), rfl⟩

/-- Appending distinct suffixes to the same string yields distinct strings. -/
lemma append_right_ne {a b : String} (s : String) (h : a ≠ b) :
    s ++ a ≠ s ++ b := by
  intro he
  apply h
  have hd := congrArg String.data he
  simp only [String.data_append] at hd
  exact String.ext (List.append_cancel_left hd)

/-- C7: for a datetime column, `process_datetime`'s output contains the
`<header>_hour_of_day` column if and only if at least one parsed row's time
string differs from `00:00:00`; when every row is exactly midnight the hour
column is omitted. -/
theorem c7_process_datetime_hour_column_iff (header : String)
    (values : List PyDateTime) (rest : List (String × List PyDateTime))
    (column_types : TypeMap) :
    ∃ l, process_datetime ((header, values) :: rest) column_types = .ok l ∧
      (((header ++ "_hour_of_day") ∈ l.map Prod.fst) ↔
        ∃ v ∈ values, timeStr v ≠ "00:00:00") := by
  refine ⟨_, rfl, ?_⟩
  have h1 : header ++ "_hour_of_day" ≠ header ++ "_day_of_week" :=
    append_right_ne header (by decide)
  have h2 : header ++ "_hour_of_day" ≠ header ++ "_day_of_month" :=
    append_right_ne header (by decide)
  by_cases ht : ∃ a ∈ values, ¬timeStr a = "00:00:00" <;>
    by_cases hw : (values.map (fun v => DTVal.s (day_of_week v.dayofweek))).dedup.length = 1 <;>
      by_cases hm : (values.map (fun v => DTVal.n v.day)).dedup.length = 1 <;>
        simp [process_datetime, listGet, ht, hw, hm, h1, h2, List.any_map,
          List.any_eq_true, Function.comp]

/-- C8: called with neither a column list nor a dataframe,
`augment_columns` fails, reaching `raise('columns or df is required')` —
the failure the spec's error taxonomy names `InvalidArgumentError`. -/
theorem c8_augment_columns_requires_input (column_types : TypeMap) :
    augment_columns none none column_types =
      .error (.raised "columns or df is required") :=
  rfl

/-- Membership in the itertools-style cartesian product: a list belongs to
`pyProduct L` exactly when it picks one element from each factor in order. -/
lemma mem_pyProduct {α : Type} {L : List (List α)} {x : List α} :
    x ∈ pyProduct L ↔ List.Forall₂ (· ∈ ·) x L := by
  induction L generalizing x with
  | nil => simp [pyProduct, List.forall₂_nil_right_iff]
  | cons xs rest ih =>
    simp only [pyProduct, List.mem_flatMap, List.mem_map,
      List.forall₂_cons_right_iff]
    constructor
    · rintro ⟨a, ha, t, ht, rfl⟩
      exact ⟨a, t, ha, ih.mp ht, rfl⟩
    · rintro ⟨a, t, ha, ht, rfl⟩
      exact ⟨a, ha, t, ih.mpr ht, rfl⟩

/-- When every header of the combo is a key of the type dict, the
per-header loop succeeds and returns each header's `(header, tag)` list. -/
lemma comboTypesList_ok {column_types : TypeMap} {combo : List String}
    (h : ∀ x ∈ combo, (column_types.lookup x).isSome) :
    comboTypesList column_types combo =
      .ok (combo.map (fun hd => (lookupD column_types hd).map (fun t => (hd, t)))) := by
  induction combo with
  | nil => rfl
  | cons hd tl ih =>
    obtain ⟨v, hv⟩ := Option.isSome_iff_exists.mp (h hd (List.mem_cons_self hd tl))
    have htl := ih (fun x hx => h x (List.mem_cons_of_mem _ hx))
    show (do
        let tags ← pyDictGet column_types hd
        let tail ← comboTypesList column_types tl
        pure (tags.map (fun t => (hd, t)) :: tail)) = _
    rw [htl, List.map_cons]
    simp only [pyDictGet, hv, lookupD, Option.getD_some]
    rfl

/-- When some header of the combo is missing from the type dict, the
per-header loop raises `KeyError` for a missing header. -/
lemma comboTypesList_error {column_types : TypeMap} {combo : List String}
    (h : ∃ x ∈ combo, column_types.lookup x = none) :
    ∃ x ∈ combo, column_types.lookup x = none ∧
      comboTypesList column_types combo = .error (.keyError x) := by
  induction combo with
  | nil => simp at h
  | cons hd tl ih =>
    cases hv : column_types.lookup hd with
    | none =>
      refine ⟨hd, List.mem_cons_self hd tl, hv, ?_⟩
      show (do
          let tags ← pyDictGet column_types hd
          let tail ← comboTypesList column_types tl
          pure (tags.map (fun t => (hd, t)) :: tail)) = _
      simp only [pyDictGet, hv]
      rfl
    | some v =>
      have htl : ∃ x ∈ tl, column_types.lookup x = none := by
        obtain ⟨x, hx, hnone⟩ := h
        rcases List.mem_cons.mp hx with rfl | hxtl
        · rw [hv] at hnone; exact absurd hnone (by simp)
        · exact ⟨x, hxtl, hnone⟩
      obtain ⟨x, hxtl, hnone, herr⟩ := ih htl
      refine ⟨x, List.mem_cons_of_mem _ hxtl, hnone, ?_⟩
      show (do
          let tags ← pyDictGet column_types hd
          let tail ← comboTypesList column_types tl
          pure (tags.map (fun t => (hd, t)) :: tail)) = _
      rw [herr]
      simp only [pyDictGet, hv]
      rfl

/-- C9: when every name of the tuple is a key of the type map,
`get_column_type_combos` succeeds and its result is exactly the cartesian
product of `(name, tag)` choices — a choice list belongs to it iff it pairs
each column of the tuple, in order, with one of that column's tags — and it
is empty as soon as some column's tag set is empty; when some name is
absent from the type map it fails with `KeyError` (the failure the spec
names `ConfigurationError`) for a missing name. -/
theorem c9_get_column_type_combos_spec (column_combo : List String)
    (column_types : TypeMap) :
    ((∀ hd ∈ column_combo, (column_types.lookup hd).isSome) →
      ∃ l, get_column_type_combos column_combo column_types = .ok l ∧
        (∀ choice, choice ∈ l ↔
          List.Forall₂
            (fun (p : String × String) hd => p.1 = hd ∧ p.2 ∈ lookupD column_types hd)
            choice column_combo) ∧
        ((∃ hd ∈ column_combo, lookupD column_types hd = []) → l = [])) ∧
    ((∃ hd ∈ column_combo, column_types.lookup hd = none) →
      ∃ hd ∈ column_combo, column_types.lookup hd = none ∧
        get_column_type_combos column_combo column_types = .error (.keyError hd)) := by
  have hpt : ∀ (p : String × String) (hd : String),
      (p ∈ (lookupD column_types hd).map (fun t => (hd, t))) ↔
        (p.1 = hd ∧ p.2 ∈ lookupD column_types hd) := by
    rintro ⟨a, b⟩ hd
    simp only [List.mem_map, Prod.mk.injEq]
    constructor
    · rintro ⟨t, ht, rfl, rfl⟩; exact ⟨rfl, ht⟩
    · rintro ⟨rfl, hb⟩; exact ⟨b, hb, rfl, rfl⟩
  constructor
  · intro hall
    have hok : get_column_type_combos column_combo column_types =
        .ok (pyProduct (column_combo.map
          (fun hd => (lookupD column_types hd).map (fun t => (hd, t))))) := by
      show (do
          let combo_types ← comboTypesList column_types column_combo
          return pyProduct combo_types) = _
      rw [comboTypesList_ok hall]
      rfl
    refine ⟨_, hok, ?_, ?_⟩
    · intro choice
      rw [mem_pyProduct, List.forall₂_map_right_iff]
      exact ⟨fun h => h.imp (fun p hd hp => (hpt p hd).mp hp),
        fun h => h.imp (fun p hd hp => (hpt p hd).mpr hp)⟩
    · rintro ⟨hd, hmem, hempty⟩
      rw [List.eq_nil_iff_forall_not_mem]
      intro choice hch
      rw [mem_pyProduct, List.forall₂_map_right_iff] at hch
      obtain ⟨i, hi⟩ := List.mem_iff_get.mp hmem
      have hlen := hch.length_eq
      have hrel := (List.forall₂_iff_get.mp hch).2 i (by omega) i.isLt
      rw [hi, hempty] at hrel
      simp at hrel
  · intro hex
    obtain ⟨x, hx, hnone, herr⟩ := comboTypesList_error hex
    refine ⟨x, hx, hnone, ?_⟩
    show (do
        let combo_types ← comboTypesList column_types column_combo
        return pyProduct combo_types) = _
    rw [herr]
    rfl

/-- Witness for C9 at concrete inputs: a two-column tuple fully covered by
the type map, and a one-column tuple missing from an empty type map. -/
theorem c9_get_column_type_combos_spec_witness :
    (∃ l, get_column_type_combos ["a", "b"] [("a", ["x", "y"]), ("b", ["z"])] = .ok l ∧
      (∀ choice, choice ∈ l ↔
        List.Forall₂
          (fun (p : String × String) hd =>
            p.1 = hd ∧ p.2 ∈ lookupD [("a", ["x", "y"]), ("b", ["z"])] hd)
          choice ["a", "b"]) ∧
      ((∃ hd ∈ ["a", "b"], lookupD [("a", ["x", "y"]), ("b", ["z"])] hd = []) → l = [])) ∧
    (∃ hd ∈ ["a", "b"], List.lookup hd [("a", ["x", "y"])] = none ∧
      get_column_type_combos ["a", "b"] [("a", ["x", "y"])] = .error (.keyError hd)) :=
  ⟨(c9_get_column_type_combos_spec ["a", "b"] [("a", ["x", "y"]), ("b", ["z"])]).1
      (by decide),
    (c9_get_column_type_combos_spec ["a", "b"] [("a", ["x", "y"])]).2 (by decide)⟩

/-- C10: the guard `if not columns and not df` tests truthiness, so an
empty column list with no dataframe takes exactly the same error path as
supplying nothing at all, rather than returning an empty output. -/
theorem c10_empty_columns_same_error_path (column_types : TypeMap) :
    augment_columns (some []) none column_types =
      .error (.raised "columns or df is required") ∧
    augment_columns (some []) none column_types =
      augment_columns none none column_types :=
  ⟨rfl, rfl⟩

end Multipy
